import Mathlib

/-!
Shallow embedding of the donation-to-download subsystem:
the Vipps webhook handler (`src/app/api/vipps-callback/route.ts`, function
`POST` with helpers `validateSignature`, `capturePayment`,
`updateDonationIndex`) and the download endpoint
(`app/api/download/[id]/route.ts`, function `GET` with helpers
`validateDownloadId`, `getDonationDetails`, `markDownloadAsUsed`).

External effects are parameters: the HMAC function, the outcome of the
auto-capture call, the `nanoid()` value, the clock, and the success of
each blob `put`.  The Vercel blob store is modelled as three keyed maps
matching the three path namespaces the code writes
(`donations/{reference}_{downloadId}.json`, `downloads/{downloadId}.json`,
`donations/index.json`).
-/

/-- JavaScript `a || b` on possibly-missing strings: an absent or empty
string falls through to the default. -/
def jsOr (a : Option String) (b : String) : String :=
  match a with
  | some s => if s = "" then b else s
  | none => b

/-- JavaScript `a || null` on a possibly-missing string: empty collapses
to null. -/
def jsOrNull (a : Option String) : Option String :=
  match a with
  | some s => if s = "" then none else some s
  | none => none

/-- Truthiness of an optional string header or env var. -/
def truthy (o : Option String) : Bool :=
  match o with
  | some s => s ≠ ""
  | none => false

/-- Amount object as it appears in the webhook payload. -/
structure RawAmount where
  value : Option Int
  currency : Option String
  deriving DecidableEq

/-- `transaction` sub-object of the payload. -/
structure RawTransaction where
  amount : Option RawAmount
  deriving DecidableEq

/-- User profile fields carried by the payload. -/
structure UserProfile where
  name : Option String
  email : Option String
  phoneNumber : Option String
  deriving DecidableEq

/-- `webhookData.data`: the payment payload, with the alternative field
locations the handler probes. -/
structure PaymentData where
  reference : Option String
  orderId : Option String
  amount : Option RawAmount
  transaction : Option RawTransaction
  userInfo : Option UserProfile
  user : Option UserProfile
  deriving DecidableEq

/-- Parsed webhook body. -/
structure WebhookData where
  eventName : String
  data : Option PaymentData
  deriving DecidableEq

/-- Normalised amount after extraction. -/
structure Amount where
  value : Int
  currency : String
  deriving DecidableEq

/-- The `switch (eventType)` in the handler mapping event names to the
canonical status strings, defaulting to UNKNOWN. -/
def mapEventStatus (eventType : String) : String :=
  if eventType = "epayments.payment.created.v1" then "CREATED"
  else if eventType = "epayments.payment.authorized.v1" then "AUTHORIZED"
  else if eventType = "epayments.payment.captured.v1" then "CAPTURED"
  else if eventType = "epayments.payment.cancelled.v1" ∨ eventType = "payment.cancelled.v1" then "CANCELLED"
  else if eventType = "epayments.payment.failed.v1" ∨ eventType = "payment.failed.v1" then "FAILED"
  else "UNKNOWN"

/-- Amount extraction: `paymentData.amount`, else
`paymentData.transaction.amount`, else `{0, NOK}`. -/
def extractAmount (pd : PaymentData) : Amount :=
  match pd.amount with
  | some a => ⟨a.value.getD 0, jsOr a.currency "NOK"⟩
  | none =>
    match pd.transaction with
    | some t =>
      match t.amount with
      | some a => ⟨a.value.getD 0, jsOr a.currency "NOK"⟩
      | none => ⟨0, "NOK"⟩
    | none => ⟨0, "NOK"⟩

/-- User info extraction: `paymentData.userInfo || paymentData.user ||
null`. -/
def extractUserInfo (pd : PaymentData) : Option UserProfile :=
  match pd.userInfo with
  | some u => some u
  | none => pd.user

/-- `paymentData.reference || paymentData.orderId || ''`. -/
def refOf (pd : PaymentData) : String :=
  jsOr pd.reference (jsOr pd.orderId "")

/-- Persisted donation record (`donations/{reference}_{downloadId}.json`).
The amount field holds `amount.value / 100` as an exact rational. -/
structure DonationRecord where
  reference : String
  amount : ℚ
  currency : String
  status : String
  timestamp : Nat
  name : Option String
  email : Option String
  phoneNumber : Option String
  downloadId : String
  deriving DecidableEq

/-- Persisted download mapping (`downloads/{downloadId}.json`).  Note the
handler writes no `used` field. -/
structure DownloadMapping where
  downloadId : String
  reference : String
  createdAt : Nat
  expiresAt : Nat
  deriving DecidableEq

/-- Entry of the denormalised `donations/index.json` document. -/
structure IndexEntry where
  reference : String
  amount : ℚ
  currency : String
  timestamp : Nat
  status : String
  name : Option String
  email : Option String
  phoneNumber : Option String
  downloadId : String
  deriving DecidableEq

/-- Replace-or-append write into a keyed association list (blob `put`
overwrites a path). -/
def putKey {β : Type} (l : List (String × β)) (k : String) (v : β) : List (String × β) :=
  match l with
  | [] => [(k, v)]
  | p :: t => if p.1 = k then (k, v) :: t else p :: putKey t k v

/-- Keyed read from an association list (blob read by path). -/
def getKey {β : Type} (l : List (String × β)) (k : String) : Option β :=
  (l.find? (fun p => p.1 = k)).map (fun p => p.2)

/-- The blob store, split by the three path namespaces the code uses.
Donation keys are `{reference}_{downloadId}`, mapping keys are
`{downloadId}`, and the index is the single `donations/index.json`
document (`none` = does not exist yet). -/
structure Store where
  donations : List (String × DonationRecord)
  mappings : List (String × DownloadMapping)
  index : Option (List IndexEntry)
  deriving DecidableEq

/-- Environment of the webhook handler. -/
structure Env where
  webhookSecret : Option String
  deriving DecidableEq

/-- Per-invocation external outcomes: auto-capture success, the fresh
`nanoid()`, the clock (ms), and whether each blob `put` succeeds. -/
structure CallCtx where
  captureOk : Bool
  freshId : String
  now : Nat
  donationPutOk : Bool
  indexPutOk : Bool
  mappingPutOk : Bool
  deriving DecidableEq

/-- Inbound webhook request: raw body (for the HMAC), optional
`X-Signature` header, and the JSON-parse result of the body. -/
structure Req where
  rawBody : String
  signature : Option String
  parsed : Option WebhookData
  deriving DecidableEq

/-- `validateSignature`: compare the hex HMAC-SHA256 of the body under
the secret with the presented signature.  The HMAC itself is an external
primitive, passed in as a function. -/
def validateSignature (hmacHex : String → String → String)
    (body sig secret : String) : Bool :=
  hmacHex secret body = sig

/-- Responses the webhook handler can produce: a JSON error with an HTTP
status, the success response carrying the download id, or the
`success:false` response naming the payment state (HTTP 200). -/
inductive HandlerResponse where
  | errorResp (msg : String) (statusCode : Nat)
  | successResp (downloadId : String)
  | notSuccessResp (msg : String)
  deriving DecidableEq

/-- `updateDonationIndex`: read the index (missing ⇒ empty), append the
minimal projection of the record, write it back. -/
def updateDonationIndex (store : Store) (r : DonationRecord) : Store :=
  let cur := store.index.getD []
  { store with index := some (cur ++ [⟨r.reference, r.amount, r.currency,
      r.timestamp, r.status, jsOrNull r.name, jsOrNull r.email,
      jsOrNull r.phoneNumber, r.downloadId⟩]) }

/-- The body of the webhook handler after the signature gate: payload
validation, status normalisation, auto-capture attempt, record and grant
issuance, index update.  Failed `put`s are caught by the handler's
try/catch blocks and leave the store unchanged. -/
def processEvent (ctx : CallCtx) (store : Store) (wd : WebhookData) :
    HandlerResponse × Store :=
  match wd.data with
  | none => (.errorResp "No payment data in webhook" 400, store)
  | some pd =>
    let reference := refOf pd
    if reference = "" then (.errorResp "Missing payment reference" 400, store)
    else
      let status := mapEventStatus wd.eventName
      let amount := extractAmount pd
      let userInfo := extractUserInfo pd
      if status = "" then (.errorResp "Missing status in callback data" 400, store)
      else if status = "AUTHORIZED" ∨ status = "CAPTURED" then
        let status1 := if status = "AUTHORIZED" then
            (if ctx.captureOk then "CAPTURED" else "AUTHORIZED")
          else status
        let downloadId := ctx.freshId
        let up := userInfo.getD ⟨none, none, none⟩
        let record : DonationRecord :=
          { reference := reference
            amount := (amount.value : ℚ) / 100
            currency := amount.currency
            status := status1
            timestamp := ctx.now
            name := jsOrNull up.name
            email := jsOrNull up.email
            phoneNumber := jsOrNull up.phoneNumber
            downloadId := downloadId }
        let store1 :=
          if ctx.donationPutOk then
            let s := { store with
              donations := putKey store.donations (reference ++ "_" ++ downloadId) record }
            if ctx.indexPutOk then updateDonationIndex s record else s
          else store
        let mapping : DownloadMapping :=
          { downloadId := downloadId
            reference := reference
            createdAt := ctx.now
            expiresAt := ctx.now + 7 * 24 * 60 * 60 * 1000 }
        let store2 :=
          if ctx.mappingPutOk then
            { store1 with mappings := putKey store1.mappings downloadId mapping }
          else store1
        (.successResp downloadId, store2)
      else (.notSuccessResp ("Payment in state: " ++ status), store)

/-- The webhook `POST` handler: JSON parse, signature gate (only applied
when both the secret and the header are truthy), then event
processing. -/
def POST (hmacHex : String → String → String) (env : Env) (ctx : CallCtx)
    (store : Store) (req : Req) : HandlerResponse × Store :=
  match req.parsed with
  | none => (.errorResp "Invalid JSON payload" 400, store)
  | some wd =>
    if truthy env.webhookSecret && truthy req.signature then
      if validateSignature hmacHex req.rawBody (req.signature.getD "")
          (env.webhookSecret.getD "") then
        processEvent ctx store wd
      else (.errorResp "Invalid webhook signature" 401, store)
    else processEvent ctx store wd

/-- Whether the request passes (or bypasses) the signature gate. -/
def sigPasses (hmacHex : String → String → String) (env : Env) (req : Req) : Bool :=
  if truthy env.webhookSecret && truthy req.signature then
    validateSignature hmacHex req.rawBody (req.signature.getD "")
      (env.webhookSecret.getD "")
  else true

/-- `validateDownloadId`: fetch `downloads/{id}.json`; missing ⇒ null;
expired (`expiresAt < now`, strict) ⇒ null; the `used` check is commented
out in the source and repeat downloads are allowed. -/
def validateDownloadId (store : Store) (now : Nat) (id : String) :
    Option DownloadMapping :=
  match getKey store.mappings id with
  | none => none
  | some m => if m.expiresAt < now then none else some m

/-- `getDonationDetails`: fetch `donations/{reference}_{downloadId}.json`. -/
def getDonationDetails (store : Store) (reference downloadId : String) :
    Option DonationRecord :=
  getKey store.donations (reference ++ "_" ++ downloadId)

/-- `markDownloadAsUsed`: a placeholder in the source — it only logs and
returns true, writing nothing to the store. -/
def markDownloadAsUsed (store : Store) (_id : String) : Store × Bool :=
  (store, true)

/-- Responses of the download `GET` handler: a JSON error with an HTTP
status, or the asset bytes (tagged here with the grant's reference). -/
inductive DownloadResponse where
  | errorResp (msg : String) (statusCode : Nat)
  | fileResp (reference : String)
  deriving DecidableEq

/-- The download `GET` handler: id check, grant validation, donation
lookup, payment-status check, asset availability, best-effort usage
marking, file response. -/
def GETdownload (store : Store) (now : Nat) (id : String)
    (artworkExists : Bool) : DownloadResponse × Store :=
  if id = "" then (.errorResp "Missing download ID" 400, store)
  else
    match validateDownloadId store now id with
    | none => (.errorResp "Invalid or expired download link" 404, store)
    | some m =>
      match getDonationDetails store m.reference id with
      | none => (.errorResp "No payment record found" 404, store)
      | some d =>
        if d.status ≠ "AUTHORIZED" ∧ d.status ≠ "CAPTURED" then
          (.errorResp "Payment not completed" 403, store)
        else if artworkExists = false then
          (.errorResp "Artwork file not found" 404, store)
        else
          ((DownloadResponse.fileResp m.reference),
            (markDownloadAsUsed store id).1)

/-- Default empty user profile (`userInfo || {}`). -/
def defaultProfile : UserProfile := ⟨none, none, none⟩

/-- Status after the auto-capture attempt: an AUTHORIZED payment whose
capture call succeeds is recorded as CAPTURED; on capture failure the
handler continues with the original status. -/
def statusAfterCapture (ctx : CallCtx) (st : String) : String :=
  if st = "AUTHORIZED" then (if ctx.captureOk then "CAPTURED" else "AUTHORIZED") else st

/-- The donation record the handler builds for a successful event. -/
def recordOf (ctx : CallCtx) (pd : PaymentData) (st : String) : DonationRecord :=
  { reference := refOf pd
    amount := ((extractAmount pd).value : ℚ) / 100
    currency := (extractAmount pd).currency
    status := statusAfterCapture ctx st
    timestamp := ctx.now
    name := jsOrNull (((extractUserInfo pd).getD defaultProfile).name)
    email := jsOrNull (((extractUserInfo pd).getD defaultProfile).email)
    phoneNumber := jsOrNull (((extractUserInfo pd).getD defaultProfile).phoneNumber)
    downloadId := ctx.freshId }

/-- The download mapping (grant) the handler builds for a successful
event: fresh id, the payment reference, and a 7-day expiry. -/
def grantOf (ctx : CallCtx) (pd : PaymentData) : DownloadMapping :=
  { downloadId := ctx.freshId
    reference := refOf pd
    createdAt := ctx.now
    expiresAt := ctx.now + 7 * 24 * 60 * 60 * 1000 }

/-- The store the handler leaves behind on the successful-payment branch,
given which `put`s succeed. -/
def postStore (ctx : CallCtx) (store : Store) (pd : PaymentData) (st : String) : Store :=
  let record := recordOf ctx pd st
  let store1 :=
    if ctx.donationPutOk then
      let s := { store with
        donations := putKey store.donations (refOf pd ++ "_" ++ ctx.freshId) record }
      if ctx.indexPutOk then updateDonationIndex s record else s
    else store
  if ctx.mappingPutOk then
    { store1 with mappings := putKey store1.mappings ctx.freshId (grantOf ctx pd) }
  else store1

/-- A concrete stand-in for the external HMAC-SHA256 hex primitive. -/
def exHmac : String → String → String := fun secret body => secret ++ "." ++ body

/-- Environment without a webhook secret. -/
def envOpen : Env := ⟨none⟩

/-- Environment with a webhook secret configured. -/
def envSecret : Env := ⟨some "sekret"⟩

/-- A payload for reference `ref-1` carrying 25000 minor units NOK. -/
def pdRef1 : PaymentData := ⟨some "ref-1", none, some ⟨some 25000, some "NOK"⟩, none, none, none⟩

/-- A captured-payment webhook body for `ref-1`. -/
def wdCaptured : WebhookData := ⟨"epayments.payment.captured.v1", some pdRef1⟩

/-- An authorized-payment webhook body for `ref-1`. -/
def wdAuthorized : WebhookData := ⟨"epayments.payment.authorized.v1", some pdRef1⟩

/-- A created-payment webhook body for `ref-1`. -/
def wdCreated : WebhookData := ⟨"epayments.payment.created.v1", some pdRef1⟩

/-- Request delivering the captured event, no signature header. -/
def reqCaptured : Req := ⟨"body-captured", none, some wdCaptured⟩

/-- Request delivering the authorized event, no signature header. -/
def reqAuthorized : Req := ⟨"body-authorized", none, some wdAuthorized⟩

/-- Request delivering the created event, no signature header. -/
def reqCreated : Req := ⟨"body-created", none, some wdCreated⟩

/-- Invocation context: capture succeeds, fresh id `grant-one`, all puts
succeed. -/
def ctxA : CallCtx := ⟨true, "grant-one", 1000, true, true, true⟩

/-- Invocation context: capture fails, fresh id `grant-two`, all puts
succeed. -/
def ctxB : CallCtx := ⟨false, "grant-two", 2000, true, true, true⟩

/-- Invocation context in which every blob `put` fails. -/
def ctxFail : CallCtx := ⟨true, "grant-one", 1000, false, false, false⟩

/-- The empty store. -/
def store0 : Store := ⟨[], [], none⟩

/-- A grant for `ref-1` expiring at time 1000. -/
def exMapping : DownloadMapping := ⟨"gid", "ref-1", 0, 1000⟩

/-- A captured donation record for `ref-1` linked to grant `gid`. -/
def exRecordCaptured : DonationRecord :=
  ⟨"ref-1", 250, "NOK", "CAPTURED", 0, none, none, none, "gid"⟩

/-- A store holding one grant and its captured donation record. -/
def exStore : Store := ⟨[("ref-1_gid", exRecordCaptured)], [("gid", exMapping)], none⟩

/-- Reading back the key just written returns the written value. -/
theorem getKey_putKey_self {β : Type} (l : List (String × β)) (k : String) (v : β) :
    getKey (putKey l k v) k = some v := by
  induction l with
  | nil => simp [putKey, getKey]
  | cons p t ih =>
    by_cases h : p.1 = k
    · simp [putKey, getKey, h]
    · simpa [putKey, getKey, h, List.find?] using ih

/-- Writing one key leaves every other key unchanged. -/
theorem getKey_putKey_other {β : Type} (l : List (String × β)) (k1 k2 : String) (v : β)
    (h : k2 ≠ k1) : getKey (putKey l k1 v) k2 = getKey l k2 := by
  induction l with
  | nil => simp [putKey, getKey, List.find?, (Ne.symm h)]
  | cons p t ih =>
    by_cases hp : p.1 = k1
    · simp [putKey, getKey, hp, List.find?, (Ne.symm h)]
    · by_cases hq : p.1 = k2
      · simp [putKey, getKey, hp, hq, List.find?, h]
      · simpa [putKey, getKey, hp, hq, List.find?] using ih

/-- The status normaliser never yields the empty string. -/
theorem mapEventStatus_ne_empty (e : String) : ¬ (mapEventStatus e = "") := by
  unfold mapEventStatus
  repeat' split
  all_goals decide

/-- When the signature gate passes, the handler is exactly the event
processor. -/
theorem POST_eq_processEvent (hmacHex : String → String → String) (env : Env)
    (ctx : CallCtx) (store : Store) (req : Req) (wd : WebhookData)
    (hparse : req.parsed = some wd) (hsig : sigPasses hmacHex env req = true) :
    POST hmacHex env ctx store req = processEvent ctx store wd := by
  unfold sigPasses at hsig
  by_cases h : (truthy env.webhookSecret && truthy req.signature) = true
  · rw [if_pos h] at hsig
    unfold POST
    rw [hparse]
    simp [h, hsig]
  · unfold POST
    rw [hparse]
    simp [h]

/-- On a successful (AUTHORIZED or CAPTURED) event with a usable
reference, the event processor returns the success response and the
`postStore` result. -/
theorem processEvent_success_eq (ctx : CallCtx) (store : Store) (wd : WebhookData)
    (pd : PaymentData) (hdata : wd.data = some pd) (href : ¬ (refOf pd = ""))
    (hst : mapEventStatus wd.eventName = "AUTHORIZED" ∨ mapEventStatus wd.eventName = "CAPTURED") :
    processEvent ctx store wd =
      (HandlerResponse.successResp ctx.freshId,
        postStore ctx store pd (mapEventStatus wd.eventName)) := by
  have hne := mapEventStatus_ne_empty wd.eventName
  unfold processEvent
  rw [hdata]
  simp only [if_neg href, if_neg hne, if_pos hst]
  rfl

/-- The successful-event store keeps the prior grants and, when the grant
`put` succeeds, adds the fresh grant. -/
theorem postStore_mappings (ctx : CallCtx) (store : Store) (pd : PaymentData) (st : String) :
    (postStore ctx store pd st).mappings =
      (if ctx.mappingPutOk then putKey store.mappings ctx.freshId (grantOf ctx pd)
        else store.mappings) := by
  unfold postStore updateDonationIndex
  by_cases h1 : ctx.donationPutOk <;> by_cases h2 : ctx.indexPutOk <;>
    by_cases h3 : ctx.mappingPutOk <;> simp [h1, h2, h3]

/-- The successful-event store keeps the prior donation records and, when
the record `put` succeeds, adds the fresh record. -/
theorem postStore_donations (ctx : CallCtx) (store : Store) (pd : PaymentData) (st : String) :
    (postStore ctx store pd st).donations =
      (if ctx.donationPutOk then
          putKey store.donations (refOf pd ++ "_" ++ ctx.freshId) (recordOf ctx pd st)
        else store.donations) := by
  unfold postStore updateDonationIndex
  by_cases h1 : ctx.donationPutOk <;> by_cases h2 : ctx.indexPutOk <;>
    by_cases h3 : ctx.mappingPutOk <;> simp [h1, h2, h3]

/-- The event processor never reaches the missing-status rejection. -/
theorem processEvent_ne_missing_status (ctx : CallCtx) (store : Store) (wd : WebhookData) :
    ¬ ((processEvent ctx store wd).1 =
        HandlerResponse.errorResp "Missing status in callback data" 400) := by
  have hne := mapEventStatus_ne_empty wd.eventName
  rcases hdata : wd.data with _ | pd
  · unfold processEvent
    rw [hdata]
    intro h
    injection h with h1 h2
    exact absurd h1 (by decide)
  · by_cases href : refOf pd = ""
    · unfold processEvent
      rw [hdata]
      simp only [if_pos href]
      intro h
      injection h with h1 h2
      exact absurd h1 (by decide)
    · by_cases hst : mapEventStatus wd.eventName = "AUTHORIZED" ∨ mapEventStatus wd.eventName = "CAPTURED"
      · rw [processEvent_success_eq ctx store wd pd hdata href hst]
        intro h
        exact HandlerResponse.noConfusion h
      · unfold processEvent
        rw [hdata]
        simp only [if_neg href, if_neg hne, if_neg hst]
        intro h
        exact HandlerResponse.noConfusion h

/-- On a successful event (signature gate passed), the webhook handler
responds with the freshly generated download id. -/
theorem POST_success_fst (hmacHex : String → String → String) (env : Env)
    (ctx : CallCtx) (store : Store) (req : Req) (wd : WebhookData) (pd : PaymentData)
    (hparse : req.parsed = some wd) (hdata : wd.data = some pd)
    (hsig : sigPasses hmacHex env req = true) (href : ¬ (refOf pd = ""))
    (hst : mapEventStatus wd.eventName = "AUTHORIZED" ∨ mapEventStatus wd.eventName = "CAPTURED") :
    (POST hmacHex env ctx store req).1 = HandlerResponse.successResp ctx.freshId := by
  rw [POST_eq_processEvent hmacHex env ctx store req wd hparse hsig,
    processEvent_success_eq ctx store wd pd hdata href hst]

/-- On a successful event (signature gate passed), the webhook handler
leaves behind exactly the `postStore` state. -/
theorem POST_success_snd (hmacHex : String → String → String) (env : Env)
    (ctx : CallCtx) (store : Store) (req : Req) (wd : WebhookData) (pd : PaymentData)
    (hparse : req.parsed = some wd) (hdata : wd.data = some pd)
    (hsig : sigPasses hmacHex env req = true) (href : ¬ (refOf pd = ""))
    (hst : mapEventStatus wd.eventName = "AUTHORIZED" ∨ mapEventStatus wd.eventName = "CAPTURED") :
    (POST hmacHex env ctx store req).2 = postStore ctx store pd (mapEventStatus wd.eventName) := by
  rw [POST_eq_processEvent hmacHex env ctx store req wd hparse hsig,
    processEvent_success_eq ctx store wd pd hdata href hst]

/-- C1: the claim fails on the code — redelivering the identical
captured event (same reference `ref-1`, same status) makes the handler
mint a second grant under a fresh `nanoid`, so two grants for `ref-1`
exist afterwards. -/
theorem C1_counterexample :
    ((POST exHmac envOpen ctxB ((POST exHmac envOpen ctxA store0 reqCaptured).2)
        reqCaptured).2.mappings.filter (fun p => p.2.reference = "ref-1")).length = 2 := by
  decide

/-- C1 (amended): grant issuance is not idempotent per payment
reference — every delivery of an AUTHORIZED or CAPTURED event whose grant
`put` succeeds creates a grant under that delivery's fresh download id,
so redelivery of the identical event leaves two grants for the same
reference in the store. -/
theorem C1_amended_redelivery_creates_second_grant
    (hmacHex : String → String → String) (env : Env) (ctx1 ctx2 : CallCtx)
    (store : Store) (req : Req) (wd : WebhookData) (pd : PaymentData)
    (hparse : req.parsed = some wd) (hdata : wd.data = some pd)
    (hsig : sigPasses hmacHex env req = true) (href : ¬ (refOf pd = ""))
    (hst : mapEventStatus wd.eventName = "AUTHORIZED" ∨ mapEventStatus wd.eventName = "CAPTURED")
    (hm1 : ctx1.mappingPutOk = true) (hm2 : ctx2.mappingPutOk = true)
    (hne : ¬ (ctx1.freshId = ctx2.freshId)) :
    getKey ((POST hmacHex env ctx2 ((POST hmacHex env ctx1 store req).2) req).2).mappings
        ctx1.freshId = some (grantOf ctx1 pd)
    ∧ getKey ((POST hmacHex env ctx2 ((POST hmacHex env ctx1 store req).2) req).2).mappings
        ctx2.freshId = some (grantOf ctx2 pd) := by
  have h1 := POST_success_snd hmacHex env ctx1 store req wd pd hparse hdata hsig href hst
  have h2 := POST_success_snd hmacHex env ctx2 ((POST hmacHex env ctx1 store req).2) req wd pd
    hparse hdata hsig href hst
  rw [h2, h1]
  constructor
  · rw [postStore_mappings, if_pos hm2, getKey_putKey_other _ _ _ _ hne,
      postStore_mappings, if_pos hm1, getKey_putKey_self]
  · rw [postStore_mappings, if_pos hm2, getKey_putKey_self]

/-- C1 witness: both grants are present after redelivering the captured
event for `ref-1`. -/
theorem C1_witness :
    getKey ((POST exHmac envOpen ctxB ((POST exHmac envOpen ctxA store0 reqCaptured).2)
        reqCaptured).2).mappings ctxA.freshId = some (grantOf ctxA pdRef1)
    ∧ getKey ((POST exHmac envOpen ctxB ((POST exHmac envOpen ctxA store0 reqCaptured).2)
        reqCaptured).2).mappings ctxB.freshId = some (grantOf ctxB pdRef1) :=
  C1_amended_redelivery_creates_second_grant exHmac envOpen ctxA ctxB store0 reqCaptured
    wdCaptured pdRef1 rfl rfl rfl (by decide) (Or.inr (by decide)) rfl rfl (by decide)

/-- C2: the claim fails on the code — after a CAPTURED event followed by
an AUTHORIZED event (whose auto-capture call fails) for the same
reference, the store holds a later record with status AUTHORIZED and the
donation index's status sequence regresses from CAPTURED to
AUTHORIZED. -/
theorem C2_counterexample :
    (getKey ((POST exHmac envOpen ctxB ((POST exHmac envOpen ctxA store0 reqCaptured).2)
        reqAuthorized).2).donations "ref-1_grant-two").map DonationRecord.status
      = some "AUTHORIZED"
    ∧ (((POST exHmac envOpen ctxB ((POST exHmac envOpen ctxA store0 reqCaptured).2)
        reqAuthorized).2).index.getD []).map IndexEntry.status
      = ["CAPTURED", "AUTHORIZED"] := by
  decide

/-- C2 (amended): the handler never advances a previously stored status;
each successful event writes a fresh record under a new key whose status
derives from that event and the capture outcome alone, leaving every
previously stored record untouched.  In particular an AUTHORIZED event
whose auto-capture fails stores a record with status AUTHORIZED even if a
CAPTURED record for the same reference already exists. -/
theorem C2_amended_no_monotonic_update
    (hmacHex : String → String → String) (env : Env) (ctx : CallCtx)
    (store : Store) (req : Req) (wd : WebhookData) (pd : PaymentData)
    (hparse : req.parsed = some wd) (hdata : wd.data = some pd)
    (hsig : sigPasses hmacHex env req = true) (href : ¬ (refOf pd = ""))
    (hst : mapEventStatus wd.eventName = "AUTHORIZED")
    (hcap : ctx.captureOk = false) (hdp : ctx.donationPutOk = true) :
    getKey ((POST hmacHex env ctx store req).2).donations (refOf pd ++ "_" ++ ctx.freshId)
        = some (recordOf ctx pd "AUTHORIZED")
    ∧ (recordOf ctx pd "AUTHORIZED").status = "AUTHORIZED"
    ∧ (∀ k, ¬ (k = refOf pd ++ "_" ++ ctx.freshId) →
        getKey ((POST hmacHex env ctx store req).2).donations k = getKey store.donations k) := by
  have hsnd := POST_success_snd hmacHex env ctx store req wd pd hparse hdata hsig href (Or.inl hst)
  rw [hsnd, hst]
  refine ⟨?_, ?_, ?_⟩
  · rw [postStore_donations, if_pos hdp, getKey_putKey_self]
  · simp [recordOf, statusAfterCapture, hcap]
  · intro k hk
    rw [postStore_donations, if_pos hdp, getKey_putKey_other _ _ _ _ hk]

/-- C2 witness: the AUTHORIZED record is stored under its fresh key and
an unrelated key is untouched. -/
theorem C2_witness :
    getKey ((POST exHmac envOpen ctxB store0 reqAuthorized).2).donations
        (refOf pdRef1 ++ "_" ++ ctxB.freshId) = some (recordOf ctxB pdRef1 "AUTHORIZED")
    ∧ getKey ((POST exHmac envOpen ctxB store0 reqAuthorized).2).donations "other-key"
        = getKey store0.donations "other-key" := by
  have h := C2_amended_no_monotonic_update exHmac envOpen ctxB store0 reqAuthorized
    wdAuthorized pdRef1 rfl rfl rfl (by decide) (by decide) rfl rfl
  exact ⟨h.1, h.2.2 "other-key" (by decide)⟩

/-- C3: the claim fails on the code at the expiry boundary — with the
grant's `expiresAt` equal to the current time, the endpoint still
releases the asset although the current time is not strictly before
`expiresAt` (the code denies only when `expiresAt < now`). -/
theorem C3_counterexample :
    (GETdownload exStore 1000 "gid" true).1 = DownloadResponse.fileResp "ref-1"
    ∧ getKey exStore.mappings "gid" = some exMapping
    ∧ ¬ (1000 < exMapping.expiresAt) := by
  decide

/-- C3 (amended): for a non-empty downloadId and an available asset, the
endpoint releases the asset iff a grant with that id exists, the current
time is at or before its `expiresAt` (not strictly before), and the
linked donation record exists with status AUTHORIZED or CAPTURED; a
missing or expired grant yields the 404 invalid-or-expired denial, a
missing donation record the 404 no-payment-record denial, and a
non-successful status the 403 payment-not-completed denial. -/
theorem C3_amended_download_authorization (store : Store) (now : Nat) (id : String)
    (hid : ¬ (id = "")) :
    ((∃ r, (GETdownload store now id true).1 = DownloadResponse.fileResp r) ↔
      (∃ m, getKey store.mappings id = some m ∧ now ≤ m.expiresAt ∧
        ∃ d, getDonationDetails store m.reference id = some d ∧
          (d.status = "AUTHORIZED" ∨ d.status = "CAPTURED")))
    ∧ (getKey store.mappings id = none →
        (GETdownload store now id true).1
          = DownloadResponse.errorResp "Invalid or expired download link" 404)
    ∧ (∀ m, getKey store.mappings id = some m → m.expiresAt < now →
        (GETdownload store now id true).1
          = DownloadResponse.errorResp "Invalid or expired download link" 404)
    ∧ (∀ m, getKey store.mappings id = some m → now ≤ m.expiresAt →
        getDonationDetails store m.reference id = none →
        (GETdownload store now id true).1
          = DownloadResponse.errorResp "No payment record found" 404)
    ∧ (∀ m d, getKey store.mappings id = some m → now ≤ m.expiresAt →
        getDonationDetails store m.reference id = some d →
        ¬ (d.status = "AUTHORIZED") → ¬ (d.status = "CAPTURED") →
        (GETdownload store now id true).1
          = DownloadResponse.errorResp "Payment not completed" 403) := by
  refine ⟨?_, ?_, ?_, ?_, ?_⟩
  · constructor
    · rintro ⟨r, hr⟩
      rcases hm : getKey store.mappings id with _ | m
      · simp [GETdownload, validateDownloadId, hid, hm] at hr
      · by_cases hexp : m.expiresAt < now
        · simp [GETdownload, validateDownloadId, hid, hm, hexp] at hr
        · rcases hd : getDonationDetails store m.reference id with _ | d
          · simp [GETdownload, validateDownloadId, hid, hm, hexp, hd] at hr
          · by_cases hs : d.status = "AUTHORIZED" ∨ d.status = "CAPTURED"
            · refine ⟨m, ?_, Nat.not_lt.mp hexp, d, ?_, hs⟩ <;>
                first | rfl | assumption
            · obtain ⟨hs1, hs2⟩ := not_or.mp hs
              simp [GETdownload, validateDownloadId, hid, hm, hexp, hd, hs1, hs2] at hr
    · rintro ⟨m, hm, hle, d, hd, hs⟩
      refine ⟨m.reference, ?_⟩
      have hnlt := Nat.not_lt.mpr hle
      rcases hs with hs | hs <;>
        simp [GETdownload, validateDownloadId, hid, hm, hnlt, hd, hs]
  · intro hm
    simp [GETdownload, validateDownloadId, hid, hm]
  · intro m hm hexp
    simp [GETdownload, validateDownloadId, hid, hm, hexp]
  · intro m hm hle hd
    simp [GETdownload, validateDownloadId, hid, hm, Nat.not_lt.mpr hle, hd]
  · intro m d hm hle hd hs1 hs2
    simp [GETdownload, validateDownloadId, hid, hm, Nat.not_lt.mpr hle, hd, hs1, hs2]

/-- C3 witness: an id with no grant in the store is denied with the 404
invalid-or-expired error. -/
theorem C3_witness :
    (GETdownload store0 500 "gid" true).1
      = DownloadResponse.errorResp "Invalid or expired download link" 404 :=
  (C3_amended_download_authorization store0 500 "gid" (by decide)).2.1 rfl

/-- C4: the claim fails on the code — with the webhook secret configured
and the `X-Signature` header absent, the handler skips validation and
processes the event to completion instead of rejecting it with an
authentication error. -/
theorem C4_counterexample :
    envSecret.webhookSecret = some "sekret"
    ∧ reqCaptured.signature = none
    ∧ (POST exHmac envSecret ctxA store0 reqCaptured).1
        = HandlerResponse.successResp "grant-one" := by
  decide

/-- C4 (amended): with a non-empty secret configured, a present non-empty
signature header that differs from the body's HMAC is rejected with the
401 invalid-signature error and no store change; a matching header is
processed normally; an absent header skips validation entirely and the
request is also processed normally. -/
theorem C4_amended_signature_gate (hmacHex : String → String → String) (env : Env)
    (ctx : CallCtx) (store : Store) (req : Req) (wd : WebhookData) (sec : String)
    (hsec : env.webhookSecret = some sec) (hsecne : ¬ (sec = ""))
    (hparse : req.parsed = some wd) :
    (∀ s, req.signature = some s → ¬ (s = "") → ¬ (hmacHex sec req.rawBody = s) →
        POST hmacHex env ctx store req
          = (HandlerResponse.errorResp "Invalid webhook signature" 401, store))
    ∧ (∀ s, req.signature = some s → hmacHex sec req.rawBody = s →
        POST hmacHex env ctx store req = processEvent ctx store wd)
    ∧ (req.signature = none → POST hmacHex env ctx store req = processEvent ctx store wd) := by
  refine ⟨?_, ?_, ?_⟩
  · intro s hs hsne hmis
    simp [POST, hparse, hsec, hs, truthy, hsecne, hsne, validateSignature, hmis]
  · intro s hs hmatch
    by_cases hse : s = ""
    · simp [POST, hparse, hsec, hs, truthy, hse]
    · simp [POST, hparse, hsec, hs, truthy, hsecne, hse, validateSignature, hmatch]
  · intro hnone
    simp [POST, hparse, hnone, truthy]

/-- C4 witness: secret configured, header absent, request processed
normally. -/
theorem C4_witness :
    POST exHmac envSecret ctxA store0 reqCaptured = processEvent ctxA store0 wdCaptured :=
  (C4_amended_signature_gate exHmac envSecret ctxA store0 reqCaptured wdCaptured "sekret"
    rfl (by decide) rfl).2.2 rfl

/-- C5: confirmed — for an AUTHORIZED event whose auto-capture call
fails, the handler still returns the success response, stores a donation
record with the pre-capture status AUTHORIZED, and a download request for
the issued grant within the expiry window is served. -/
theorem C5_capture_failure_resilience (hmacHex : String → String → String) (env : Env)
    (ctx : CallCtx) (store : Store) (req : Req) (wd : WebhookData) (pd : PaymentData)
    (now2 : Nat)
    (hparse : req.parsed = some wd) (hdata : wd.data = some pd)
    (hsig : sigPasses hmacHex env req = true) (href : ¬ (refOf pd = ""))
    (hst : mapEventStatus wd.eventName = "AUTHORIZED")
    (hcap : ctx.captureOk = false)
    (hdp : ctx.donationPutOk = true) (hmp : ctx.mappingPutOk = true)
    (hfid : ¬ (ctx.freshId = ""))
    (hnow : now2 ≤ ctx.now + 7 * 24 * 60 * 60 * 1000) :
    (POST hmacHex env ctx store req).1 = HandlerResponse.successResp ctx.freshId
    ∧ (getKey ((POST hmacHex env ctx store req).2).donations
        (refOf pd ++ "_" ++ ctx.freshId)).map DonationRecord.status = some "AUTHORIZED"
    ∧ (GETdownload ((POST hmacHex env ctx store req).2) now2 ctx.freshId true).1
        = DownloadResponse.fileResp (refOf pd) := by
  have hsnd := POST_success_snd hmacHex env ctx store req wd pd hparse hdata hsig href (Or.inl hst)
  have hmapp : getKey ((POST hmacHex env ctx store req).2).mappings ctx.freshId
      = some (grantOf ctx pd) := by
    rw [hsnd, postStore_mappings, if_pos hmp, getKey_putKey_self]
  have hdon : getKey ((POST hmacHex env ctx store req).2).donations
      (refOf pd ++ "_" ++ ctx.freshId) = some (recordOf ctx pd "AUTHORIZED") := by
    rw [hsnd, hst, postStore_donations, if_pos hdp, getKey_putKey_self]
  have hstatus : (recordOf ctx pd "AUTHORIZED").status = "AUTHORIZED" := by
    simp [recordOf, statusAfterCapture, hcap]
  refine ⟨POST_success_fst hmacHex env ctx store req wd pd hparse hdata hsig href (Or.inl hst),
    ?_, ?_⟩
  · rw [hdon]
    simp [hstatus]
  · have hnlt : ¬ (ctx.now + 604800000 < now2) := by omega
    simp [GETdownload, validateDownloadId, getDonationDetails, hfid, hmapp, grantOf, hnlt,
      hdon, hstatus]

/-- C5 witness: the authorized event with failed capture at the concrete
inputs yields the success response, an AUTHORIZED record, and a served
download. -/
theorem C5_witness :
    (POST exHmac envOpen ctxB store0 reqAuthorized).1
      = HandlerResponse.successResp ctxB.freshId
    ∧ (getKey ((POST exHmac envOpen ctxB store0 reqAuthorized).2).donations
        (refOf pdRef1 ++ "_" ++ ctxB.freshId)).map DonationRecord.status = some "AUTHORIZED"
    ∧ (GETdownload ((POST exHmac envOpen ctxB store0 reqAuthorized).2) 3000 ctxB.freshId
        true).1 = DownloadResponse.fileResp (refOf pdRef1) :=
  C5_capture_failure_resilience exHmac envOpen ctxB store0 reqAuthorized wdAuthorized pdRef1
    3000 rfl rfl rfl (by decide) (by decide) rfl rfl rfl (by decide) (by decide)

/-- C6: the claim fails on the code — with both the donation-record `put`
and the grant `put` failing, the handler still returns the success
response and leaves the store unchanged, instead of propagating a failure
response. -/
theorem C6_counterexample :
    POST exHmac envOpen ctxFail store0 reqCaptured
      = (HandlerResponse.successResp "grant-one", store0) := by
  decide

/-- C6 (amended): persistence failures in storing the donation record and
the download grant are caught inside the handler's try/catch blocks; the
handler still returns the success response and the store is left
unchanged — the failure does not propagate to the caller. -/
theorem C6_amended_storage_failures_swallowed (hmacHex : String → String → String)
    (env : Env) (ctx : CallCtx) (store : Store) (req : Req) (wd : WebhookData)
    (pd : PaymentData)
    (hparse : req.parsed = some wd) (hdata : wd.data = some pd)
    (hsig : sigPasses hmacHex env req = true) (href : ¬ (refOf pd = ""))
    (hst : mapEventStatus wd.eventName = "AUTHORIZED" ∨ mapEventStatus wd.eventName = "CAPTURED")
    (hdp : ctx.donationPutOk = false) (hmp : ctx.mappingPutOk = false) :
    POST hmacHex env ctx store req = (HandlerResponse.successResp ctx.freshId, store) := by
  rw [POST_eq_processEvent hmacHex env ctx store req wd hparse hsig,
    processEvent_success_eq ctx store wd pd hdata href hst]
  simp [postStore, hdp, hmp]

/-- C6 witness: concrete failed-puts run returns success with the store
unchanged. -/
theorem C6_witness :
    POST exHmac envOpen ctxFail store0 reqAuthorized
      = (HandlerResponse.successResp ctxFail.freshId, store0) :=
  C6_amended_storage_failures_swallowed exHmac envOpen ctxFail store0 reqAuthorized
    wdAuthorized pdRef1 rfl rfl rfl (by decide) (Or.inl (by decide)) rfl rfl

/-- C7: the claim fails on the code — a successful download leaves the
store byte-for-byte unchanged, because `markDownloadAsUsed` is a
placeholder that only logs; no `used` field is ever written (the stored
grant shape has none). -/
theorem C7_counterexample :
    GETdownload exStore 500 "gid" true = (DownloadResponse.fileResp "ref-1", exStore)
    ∧ markDownloadAsUsed exStore "gid" = (exStore, true) := by
  decide

/-- C7 (amended): the download handler invokes `markDownloadAsUsed`
best-effort after a successful authorization, but that helper performs no
store write at all — it returns the store unchanged with a true flag, and
no invocation of the download endpoint ever mutates the store. -/
theorem C7_amended_mark_used_writes_nothing :
    (∀ (store : Store) (id : String), markDownloadAsUsed store id = (store, true))
    ∧ (∀ (store : Store) (now : Nat) (id : String) (aw : Bool),
        (GETdownload store now id aw).2 = store) := by
  constructor
  · intro store id
    rfl
  · intro store now id aw
    unfold GETdownload markDownloadAsUsed
    repeat' split
    all_goals rfl

/-- C8: confirmed — the event carrying 25000 minor units NOK is persisted
as exactly 250 major units with currency NOK, and the read-back value
round-trips exactly to 25000 minor units. -/
theorem C8_minor_unit_roundtrip :
    pdRef1.amount = some ⟨some 25000, some "NOK"⟩
    ∧ (getKey ((POST exHmac envOpen ctxA store0 reqCaptured).2).donations
        "ref-1_grant-one").map DonationRecord.amount = some (250 : ℚ)
    ∧ (getKey ((POST exHmac envOpen ctxA store0 reqCaptured).2).donations
        "ref-1_grant-one").map DonationRecord.currency = some "NOK"
    ∧ (250 : ℚ) * 100 = 25000 := by
  refine ⟨by decide, ?_, by decide, by norm_num⟩
  have h : (getKey ((POST exHmac envOpen ctxA store0 reqCaptured).2).donations
      "ref-1_grant-one").map DonationRecord.amount = some (((25000 : Int) : ℚ) / 100) := rfl
  rw [h]
  norm_num

/-- C9: confirmed — the event-name normaliser is total onto the six
canonical statuses and never yields an empty status, so the handler's
missing-status rejection branch is unreachable for every request. -/
theorem C9_status_normalization_total :
    (∀ e, ¬ (mapEventStatus e = "")
      ∧ (mapEventStatus e = "CREATED" ∨ mapEventStatus e = "AUTHORIZED"
          ∨ mapEventStatus e = "CAPTURED" ∨ mapEventStatus e = "CANCELLED"
          ∨ mapEventStatus e = "FAILED" ∨ mapEventStatus e = "UNKNOWN"))
    ∧ (∀ (hmacHex : String → String → String) (env : Env) (ctx : CallCtx)
        (store : Store) (req : Req),
        ¬ ((POST hmacHex env ctx store req).1
            = HandlerResponse.errorResp "Missing status in callback data" 400)) := by
  constructor
  · intro e
    refine ⟨mapEventStatus_ne_empty e, ?_⟩
    unfold mapEventStatus
    repeat' split
    all_goals simp
  · intro hmacHex env ctx store req
    rcases hp : req.parsed with _ | wd
    · unfold POST
      rw [hp]
      intro h
      injection h with h1 h2
      exact absurd h1 (by decide)
    · by_cases hsig : sigPasses hmacHex env req = true
      · rw [POST_eq_processEvent hmacHex env ctx store req wd hp hsig]
        exact processEvent_ne_missing_status ctx store wd
      · unfold sigPasses at hsig
        by_cases ht : (truthy env.webhookSecret && truthy req.signature) = true
        · rw [if_pos ht] at hsig
          have hv : validateSignature hmacHex req.rawBody (req.signature.getD "")
              (env.webhookSecret.getD "") = false := by
            simpa using hsig
          unfold POST
          rw [hp]
          simp only [ht, if_true, hv]
          intro h
          injection h with h1 h2
          exact absurd h1 (by decide)
        · rw [if_neg ht] at hsig
          exact absurd rfl hsig

/-- C10: confirmed — for a normalised status outside
{AUTHORIZED, CAPTURED} the handler performs no store writes at all and
returns the non-error `success:false` response naming the state. -/
theorem C10_nonsuccess_states_write_nothing (hmacHex : String → String → String)
    (env : Env) (ctx : CallCtx) (store : Store) (req : Req) (wd : WebhookData)
    (pd : PaymentData)
    (hparse : req.parsed = some wd) (hdata : wd.data = some pd)
    (hsig : sigPasses hmacHex env req = true) (href : ¬ (refOf pd = ""))
    (hs1 : ¬ (mapEventStatus wd.eventName = "AUTHORIZED"))
    (hs2 : ¬ (mapEventStatus wd.eventName = "CAPTURED")) :
    POST hmacHex env ctx store req =
      (HandlerResponse.notSuccessResp ("Payment in state: " ++ mapEventStatus wd.eventName),
        store) := by
  rw [POST_eq_processEvent hmacHex env ctx store req wd hparse hsig]
  have hne := mapEventStatus_ne_empty wd.eventName
  have hst : ¬ (mapEventStatus wd.eventName = "AUTHORIZED"
      ∨ mapEventStatus wd.eventName = "CAPTURED") := by
    intro h
    rcases h with h | h
    · exact hs1 h
    · exact hs2 h
  unfold processEvent
  rw [hdata]
  simp only [if_neg href, if_neg hne, if_neg hst]

/-- C10 witness: a created-payment event leaves the store unchanged and
yields the state-naming non-error response. -/
theorem C10_witness :
    POST exHmac envOpen ctxA store0 reqCreated =
      (HandlerResponse.notSuccessResp
        ("Payment in state: " ++ mapEventStatus wdCreated.eventName), store0) :=
  C10_nonsuccess_states_write_nothing exHmac envOpen ctxA store0 reqCreated wdCreated pdRef1
    rfl rfl rfl (by decide) (by decide) (by decide)
